import Mathlib

/-!
Shallow embedding of the anomaly-detection pipeline in
`notebooks/AnomalyDetection.ipynb` (functions `get_anomaly_summary`,
`generate_forecast`, `get_minutes_between_dates` and class `AnomalyResult`).

Timestamps are modelled as integers counting minutes (the notebook works at
one-minute native resolution and 30-minute buckets), values as rationals.
A pandas `DataFrame` carrying the raw series is modelled by `RawFrame`, whose
boolean fields record the metadata the notebook's pre-flight checks inspect
(presence of a `value` column, numeric dtype, `DatetimeIndex`).  Division is
modelled as a partial operation (`Except`): the deviation formula divides
without any guard, and a zero denominator has no defined rational result.
The external AutoGluon predictor is out of scope and enters as an opaque
function parameter (`Predictor`).
-/

abbrev Timestamp := Int

/-- One row of an AutoGluon quantile forecast: the `mean` column and the
`0.1`, `0.5`, `0.9` quantile columns requested by `generate_forecast`
(`quantile_levels=[0.1, 0.5, 0.9]`). -/
structure ForecastRow where
  mean : ℚ
  q10 : ℚ
  q50 : ℚ
  q90 : ℚ
deriving DecidableEq, Repr

/-- A quantile forecast: ordered rows indexed by timestamp. -/
structure QuantileForecast where
  rows : List (Timestamp × ForecastRow)
deriving DecidableEq, Repr

/-- The raw input `DataFrame`.  `rows` are the (timestamp, value) pairs; the
boolean fields model the frame-level metadata that `get_anomaly_summary`'s
validation block inspects. -/
structure RawFrame where
  hasValueColumn : Bool
  valueNumeric : Bool
  hasDatetimeIndex : Bool
  rows : List (Timestamp × ℚ)
deriving DecidableEq, Repr

/-- Errors of the pipeline: the four `ValueError`s raised by the validation
block of `get_anomaly_summary`, plus the division-by-zero domain error of the
deviation formula. -/
inductive PipeError where
  | missingValueColumn
  | emptyDataFrame
  | nonNumericValue
  | noDatetimeIndex
  | divByZero
deriving DecidableEq, Repr

/-- Whether an error comes from the input-validation block. -/
def PipeError.isValidation : PipeError → Bool
  | .missingValueColumn => true
  | .emptyDataFrame => true
  | .nonNumericValue => true
  | .noDatetimeIndex => true
  | .divByZero => false

/-- The validation block at the top of `get_anomaly_summary`, in source
order: required `value` column, `df.empty`, numeric dtype,
`DatetimeIndex`. -/
def validate (df : RawFrame) : Except PipeError Unit :=
  if df.hasValueColumn = false then .error .missingValueColumn
  else if df.rows.isEmpty then .error .emptyDataFrame
  else if df.valueNumeric = false then .error .nonNumericValue
  else if df.hasDatetimeIndex = false then .error .noDatetimeIndex
  else .ok ()

/-- First value stored under timestamp `t` in an indexed list (the value a
pandas index lookup joins on). -/
def lookupTs {α : Type} (t : Timestamp) : List (Timestamp × α) → Option α
  | [] => none
  | p :: rest => if p.1 = t then some p.2 else lookupTs t rest

/-- `pd.merge(xs, ys, left_index=True, right_index=True, how='inner')`:
rows of `xs` whose timestamp also appears in `ys`, paired with the matching
`ys` value. -/
def innerJoin {α β : Type} (xs : List (Timestamp × α)) (ys : List (Timestamp × β)) :
    List (Timestamp × α × β) :=
  xs.filterMap fun p => (lookupTs p.1 ys).map fun b => (p.1, p.2, b)

/-- `interval_length = 30` (minutes) in `get_anomaly_summary`. -/
def interval_length : Int := 30

/-- Start of the resampling bucket containing `t` (pandas `resample` aligns
buckets to epoch multiples of the bucket width: floor division). -/
def bucketOf (interval : Int) (t : Timestamp) : Timestamp :=
  interval * (t.fdiv interval)

/-- `mean()` aggregation of one bucket; an empty bucket has no value. -/
def meanAgg (xs : List ℚ) : Option ℚ :=
  if xs.isEmpty then none else some (xs.sum / xs.length)

/-- `min()` aggregation of one bucket; an empty bucket has no value. -/
def minAgg : List ℚ → Option ℚ
  | [] => none
  | x :: rest => some (rest.foldl min x)

/-- `max()` aggregation of one bucket; an empty bucket has no value. -/
def maxAgg : List ℚ → Option ℚ
  | [] => none
  | x :: rest => some (rest.foldl max x)

/-- `df.resample('{interval}min').agg()`: one bucket per `interval`-minute
slot from the first to the last occupied bucket, each carrying the aggregate
of the samples falling into it (`none` for empty buckets). -/
def resampleAgg (interval : Int) (agg : List ℚ → Option ℚ)
    (rows : List (Timestamp × ℚ)) : List (Timestamp × Option ℚ) :=
  match rows with
  | [] => []
  | (t0, _) :: _ =>
    let buckets := rows.map fun p => bucketOf interval p.1
    let lo := buckets.foldl min (bucketOf interval t0)
    let hi := buckets.foldl max (bucketOf interval t0)
    (List.range (((hi - lo) / interval).toNat + 1)).map fun i =>
      let b := lo + interval * (i : Int)
      (b, agg ((rows.filter fun p => bucketOf interval p.1 = b).map Prod.snd))

/-- The external predictor capability wrapped by `generate_forecast`
(AutoGluon `TimeSeriesPredictor`, out of scope): from an aggregated series
and a prediction length it produces a quantile forecast. -/
abbrev Predictor := List (Timestamp × Option ℚ) → Int → QuantileForecast

/-- `generate_forecast(df, prediction_length)`: invoke the predictor. -/
def generate_forecast (predictor : Predictor) (df : List (Timestamp × Option ℚ))
    (prediction_length : Int) : QuantileForecast :=
  predictor df prediction_length

/-- `get_minutes_between_dates`: minute difference of the two instants. -/
def get_minutes_between_dates (fromTime toTime : Timestamp) : Int :=
  toTime - fromTime

/-- One row of the merged corridor: the `mean` column of the mean-series
forecast, the `0.1` column of the min-series forecast (renamed `floor`), the
`0.9` column of the max-series forecast (renamed `hat`). -/
structure CorridorRow where
  t : Timestamp
  mean : ℚ
  floor : ℚ
  hat : ℚ
deriving DecidableEq, Repr

/-- The two successive inner merges of `get_anomaly_summary`:
`merge(forecastMean[['mean']], forecastMin[['0.1']])` then
`merge(. , forecastMax[['0.9']])`, with the renames to `floor`/`hat`. -/
def mergeCorridor (forecastMean forecastMin forecastMax : QuantileForecast) :
    List CorridorRow :=
  let left := innerJoin (forecastMean.rows.map fun p => (p.1, p.2.mean))
      (forecastMin.rows.map fun p => (p.1, p.2.q10))
  let both := innerJoin left (forecastMax.rows.map fun p => (p.1, p.2.q90))
  both.map fun p => { t := p.1, mean := p.2.1.1, floor := p.2.1.2, hat := p.2.2 }

/-- Last corridor row whose timestamp is `≤ t` (for a corridor sorted by
time, the interpolation anchor on the left). -/
def lastLE (corridor : List CorridorRow) (t : Timestamp) : Option CorridorRow :=
  corridor.foldl (fun acc r => if r.t ≤ t then some r else acc) none

/-- First corridor row whose timestamp is `≥ t` (the interpolation anchor on
the right). -/
def firstGE (corridor : List CorridorRow) (t : Timestamp) : Option CorridorRow :=
  corridor.foldr (fun r acc => if t ≤ r.t then some r else acc) none

/-- Time-weighted linear interpolation of the column `proj` between anchor
rows `r1` and `r2` at instant `t` (pandas `interpolate(method='time')`). -/
def interpVal (r1 r2 : CorridorRow) (t : Timestamp) (proj : CorridorRow → ℚ) : ℚ :=
  if r2.t = r1.t then proj r1
  else proj r1 + (proj r2 - proj r1) * (((t : ℚ) - (r1.t : ℚ)) / ((r2.t : ℚ) - (r1.t : ℚ)))

/-- `resample('1min').interpolate(method='time')`: a one-minute grid from the
corridor's first to its last timestamp, each column interpolated between the
two surrounding corridor rows (no extrapolation outside the span). -/
def upsample (corridor : List CorridorRow) : List CorridorRow :=
  match corridor with
  | [] => []
  | c0 :: _ =>
    let t0 := c0.t
    let t1 := (corridor.getLastD c0).t
    (List.range ((t1 - t0).toNat + 1)).map fun i =>
      let t := t0 + (i : Int)
      match lastLE corridor t, firstGE corridor t with
      | some r1, some r2 =>
        { t := t, mean := interpVal r1 r2 t CorridorRow.mean,
          floor := interpVal r1 r2 t CorridorRow.floor,
          hat := interpVal r1 r2 t CorridorRow.hat }
      | some r1, none => { t := t, mean := r1.mean, floor := r1.floor, hat := r1.hat }
      | none, some r2 => { t := t, mean := r2.mean, floor := r2.floor, hat := r2.hat }
      | none, none => { t := t, mean := 0, floor := 0, hat := 0 }

/-- The final inner merge of `get_anomaly_summary` with `df[['value']]`:
each upsampled corridor row keeps only timestamps carrying an actual
observation, paired with that observation (renamed `actual`). -/
def joinActual (upsampled : List CorridorRow) (acts : List (Timestamp × ℚ)) :
    List (CorridorRow × ℚ) :=
  upsampled.filterMap fun c => (lookupTs c.t acts).map fun v => (c, v)

/-- Rational division as the partial operation the notebook performs without
any zero guard. -/
def divE (num den : ℚ) : Except PipeError ℚ :=
  if den = 0 then .error .divByZero else .ok (num / den)

/-- The deviation lambda applied row-wise:
`(-floor / actual) + 1 if floor > actual else (actual / hat) - 1 if actual > hat else None`. -/
def rowDeviation (floor hat actual : ℚ) : Except PipeError (Option ℚ) :=
  if actual < floor then
    match divE (-floor) actual with
    | .error e => .error e
    | .ok q => .ok (some (q + 1))
  else if hat < actual then
    match divE actual hat with
    | .error e => .error e
    | .ok q => .ok (some (q - 1))
  else .ok none

/-- One row of the final forecast table: the merged corridor columns, the
joined `actual` value and the computed `deviation` column. -/
structure DevRow where
  t : Timestamp
  mean : ℚ
  floor : ℚ
  hat : ℚ
  actual : ℚ
  deviation : Option ℚ
deriving DecidableEq, Repr

/-- `merged['deviation'] = merged.apply(lambda, axis=1)`: the deviation
column computed row by row over the joined table. -/
def scoreDeviations : List (CorridorRow × ℚ) → Except PipeError (List DevRow)
  | [] => .ok []
  | (c, a) :: rest =>
    match rowDeviation c.floor c.hat a with
    | .error e => .error e
    | .ok d =>
      match scoreDeviations rest with
      | .error e => .error e
      | .ok out =>
        .ok ({ t := c.t, mean := c.mean, floor := c.floor, hat := c.hat,
               actual := a, deviation := d } :: out)

/-- The data content of the terminal `AnomalyResult`: the forecast table
(`merged`) and the raw actuals (`df`). -/
structure AnomalySummary where
  forecast : List DevRow
  actual : List (Timestamp × ℚ)
deriving DecidableEq, Repr

/-- The corridor computed inside `get_anomaly_summary`: slice history before
`fromTime`, resample it three times (mean/min/max), forecast each summary,
and merge the three forecasts. -/
def corridorOf (predictor : Predictor) (df : RawFrame) (fromTime toTime : Timestamp) :
    List CorridorRow :=
  let prediction_steps := get_minutes_between_dates fromTime toTime
  let prediction_intervals := prediction_steps / interval_length
  let dfHistoricalData := df.rows.filter fun p => p.1 < fromTime
  let dfMean := resampleAgg interval_length meanAgg dfHistoricalData
  let dfMin := resampleAgg interval_length minAgg dfHistoricalData
  let dfMax := resampleAgg interval_length maxAgg dfHistoricalData
  mergeCorridor (generate_forecast predictor dfMean prediction_intervals)
    (generate_forecast predictor dfMin prediction_intervals)
    (generate_forecast predictor dfMax prediction_intervals)

/-- `get_anomaly_summary(df, fromTime, toTime)`: validate, build the
corridor, upsample it to one-minute resolution, join with the actuals,
compute the deviation column, and bundle the result. -/
def get_anomaly_summary (predictor : Predictor) (df : RawFrame)
    (fromTime toTime : Timestamp) : Except PipeError AnomalySummary :=
  match validate df with
  | .error e => .error e
  | .ok _ =>
    match scoreDeviations
        (joinActual (upsample (corridorOf predictor df fromTime toTime)) df.rows) with
    | .error e => .error e
    | .ok table => .ok { forecast := table, actual := df.rows }

/-!
Reference-level model of `AnomalyResult`.  pandas `DataFrame` objects are
heap values: a store is a list of frames, a Python variable holding a frame
is an index (`Ref`) into the store.  `Frame.writeable` models the
`writeable` flag of the frame's backing numpy array; `df.copy()` allocates
a fresh frame with the same data and a writeable backing array.
-/

namespace Frames

/-- A DataFrame heap object: its tabular data and the `writeable` flag of
its backing array. -/
structure Frame where
  data : List (Timestamp × ℚ)
  writeable : Bool
deriving DecidableEq, Repr

abbrev Store := List Frame

abbrev Ref := Nat

/-- Dereference: the frame a variable points at. -/
def getFrame (s : Store) (r : Ref) : Frame :=
  s.getD r { data := [], writeable := true }

/-- `df.copy()`: allocate a fresh frame with the same data and a fresh
writeable backing array; return the new store and the new reference. -/
def copyFrame (s : Store) (r : Ref) : Store × Ref :=
  (s ++ [{ data := (getFrame s r).data, writeable := true }], s.length)

/-- `df.values.flags.writeable = b`: `DataFrame.values` materialises a
fresh array object on every access, and numpy's `writeable` flag belongs to
that array object alone, so the assignment mutates only the discarded
temporary — the frame's stored array keeps its flag and the store is
unchanged. -/
def setValuesWriteable (s : Store) (r : Ref) (b : Bool) : Store :=
  s

/-- An in-place write through reference `r`; numpy refuses the write when
the backing array is not writeable, so the store is unchanged then. -/
def writeData (s : Store) (r : Ref) (d : List (Timestamp × ℚ)) : Store :=
  if (getFrame s r).writeable then s.set r { data := d, writeable := true } else s

/-- The `AnomalyResult` object: references to the frames bound to
`self._forecast` and `self._actual`. -/
structure AnomalyResult where
  forecastRef : Ref
  actualRef : Ref
deriving DecidableEq, Repr

/-- `AnomalyResult.__init__`: `self._forecast = forecast_data` (no copy),
`self._actual = actual_data.copy()`, then the two
`.values.flags.writeable = False` statements, each of which touches only a
temporary array and leaves every stored frame as it was. -/
def init (s : Store) (forecast_data actual_data : Ref) : Store × AnomalyResult :=
  let fRef := forecast_data
  let s1 := (copyFrame s actual_data).1
  let aRef := (copyFrame s actual_data).2
  let s2 := setValuesWriteable s1 fRef false
  let s3 := setValuesWriteable s2 aRef false
  (s3, { forecastRef := fRef, actualRef := aRef })

/-- The `forecast` property: `return self._forecast.copy()`. -/
def forecast (s : Store) (ar : AnomalyResult) : Store × Ref :=
  copyFrame s ar.forecastRef

/-- The `actual` property: `return self._actual.copy()`. -/
def actual (s : Store) (ar : AnomalyResult) : Store × Ref :=
  copyFrame s ar.actualRef

end Frames

/-- A strictly increasing timestamp index. -/
def strictlyIncreasing (rows : List (Timestamp × ℚ)) : Prop :=
  rows.Chain' fun p q => p.1 < q.1

/-! Concrete sample inputs used to exhibit the theorems at work. -/

/-- A predictor that returns an empty forecast. -/
def predictorEmpty : Predictor := fun _ _ => { rows := [] }

/-- A predictor that forecasts a single 30-minute bucket. -/
def predictorConst : Predictor := fun _ _ =>
  { rows := [(30, { mean := 2, q10 := 1, q50 := 2, q90 := 4 })] }

/-- A well-formed raw frame with observations at minutes 0, 30 and 35. -/
def sampleFrame : RawFrame :=
  { hasValueColumn := true, valueNumeric := true, hasDatetimeIndex := true,
    rows := [(0, 1), (30, 3), (35, 7)] }

/-- A raw frame whose timestamp index decreases. -/
def decreasingFrame : RawFrame :=
  { hasValueColumn := true, valueNumeric := true, hasDatetimeIndex := true,
    rows := [(1, 5), (0, 5)] }

/-- A raw frame with a value column, numeric dtype and a time index but no
rows. -/
def emptyFrame : RawFrame :=
  { hasValueColumn := true, valueNumeric := true, hasDatetimeIndex := true,
    rows := [] }

/-- Sample mean-series forecast sharing timestamp 0 with the other two. -/
def fmSample : QuantileForecast :=
  { rows := [(0, { mean := 10, q10 := 8, q50 := 10, q90 := 12 }),
             (30, { mean := 11, q10 := 9, q50 := 11, q90 := 13 })] }

/-- Sample min-series forecast. -/
def fiSample : QuantileForecast :=
  { rows := [(0, { mean := 8, q10 := 7, q50 := 8, q90 := 9 })] }

/-- Sample max-series forecast. -/
def faSample : QuantileForecast :=
  { rows := [(0, { mean := 12, q10 := 11, q50 := 12, q90 := 13 }),
             (60, { mean := 9, q10 := 9, q50 := 9, q90 := 9 })] }

/-- A joined row whose actual sits inside the corridor. -/
def joinedWithin : List (CorridorRow × ℚ) :=
  [({ t := 0, mean := 5, floor := 1, hat := 9 }, 5)]

/-- Joined rows breaching the floor (first) and the ceiling (second). -/
def joinedBreach : List (CorridorRow × ℚ) :=
  [({ t := 0, mean := 0, floor := 6, hat := 9 }, 3),
   ({ t := 1, mean := 0, floor := 1, hat := 2 }, 3)]

/-- The deviation rows computed from `joinedBreach`: `1 - 6/3 = -1` for the
floor breach and `3/2 - 1 = 1/2` for the ceiling breach. -/
def devBreach1 : DevRow :=
  { t := 0, mean := 0, floor := 6, hat := 9, actual := 3, deviation := some (-1) }

/-- The ceiling-breach row computed from `joinedBreach`. -/
def devBreach2 : DevRow :=
  { t := 1, mean := 0, floor := 1, hat := 2, actual := 3, deviation := some (1/2) }

/-- A joined row where the corridor is crossed: floor 6 > actual 3 > hat 1. -/
def joinedCrossed : List (CorridorRow × ℚ) :=
  [({ t := 0, mean := 0, floor := 6, hat := 1 }, 3)]

/-- A joined row with a zero actual below the floor. -/
def joinedZero : List (CorridorRow × ℚ) :=
  [({ t := 0, mean := 0, floor := 2, hat := 5 }, 0)]

/-- The deviation row produced by running the pipeline on `sampleFrame`
with `predictorConst` over the window [30, 60): corridor (2, 1, 4) at
minute 30 against the actual value 3. -/
def devRowC5 : DevRow :=
  { t := 30, mean := 2, floor := 1, hat := 4, actual := 3, deviation := none }

/-- A two-frame store: the caller's forecast frame and actual frame. -/
def sampleStore : Frames.Store :=
  [{ data := [(0, 1)], writeable := true }, { data := [(0, 2)], writeable := true }]

/-- An `AnomalyResult` whose internal references point at `sampleStore`. -/
def sampleResult : Frames.AnomalyResult := { forecastRef := 0, actualRef := 1 }

/-- `sampleStore` after one `forecast` accessor call. -/
def sampleStore1 : Frames.Store :=
  sampleStore ++ [{ data := [(0, 1)], writeable := true }]

/-- `sampleStore1` after a second `forecast` accessor call. -/
def sampleStore2 : Frames.Store :=
  sampleStore1 ++ [{ data := [(0, 1)], writeable := true }]

/-- `sampleStore` after one `actual` accessor call. -/
def sampleStoreA1 : Frames.Store :=
  sampleStore ++ [{ data := [(0, 2)], writeable := true }]

/-- `sampleStoreA1` after a second `actual` accessor call. -/
def sampleStoreA2 : Frames.Store :=
  sampleStoreA1 ++ [{ data := [(0, 2)], writeable := true }]

/-- `sampleStore` after `AnomalyResult.__init__(frame 0, frame 1)`: the two
original frames are untouched (the writeable-flag assignments land on
discarded temporaries) and a writeable copy of the actual data is
appended. -/
def sampleStoreInit : Frames.Store :=
  [{ data := [(0, 1)], writeable := true }, { data := [(0, 2)], writeable := true },
   { data := [(0, 2)], writeable := true }]

/-! Helper lemmas about lookups, joins and the deviation scorer. -/

theorem lookupTs_mem {α : Type} {t : Timestamp} {ys : List (Timestamp × α)} {b : α}
    (h : lookupTs t ys = some b) : (t, b) ∈ ys := by
  induction ys with
  | nil => simp [lookupTs] at h
  | cons p rest ih =>
    obtain ⟨t', b'⟩ := p
    rw [lookupTs] at h
    by_cases hp : t' = t
    · rw [if_pos hp] at h
      cases h
      subst hp
      exact List.mem_cons_self _ _
    · rw [if_neg hp] at h
      exact List.mem_cons_of_mem _ (ih h)

theorem lookupTs_isSome_of_mem {α : Type} {t : Timestamp} {ys : List (Timestamp × α)}
    (h : t ∈ ys.map Prod.fst) : ∃ b, lookupTs t ys = some b := by
  induction ys with
  | nil => simp at h
  | cons p rest ih =>
    rw [List.map_cons, List.mem_cons] at h
    by_cases hp : p.1 = t
    · exact ⟨p.2, by rw [lookupTs, if_pos hp]⟩
    · rcases h with h | h
      · exact absurd h.symm hp
      · rcases ih h with ⟨b, hb⟩
        exact ⟨b, by rw [lookupTs, if_neg hp, hb]⟩

theorem lookupTs_mem_keys {α : Type} {t : Timestamp} {ys : List (Timestamp × α)} {b : α}
    (h : lookupTs t ys = some b) : t ∈ ys.map Prod.fst :=
  List.mem_map.mpr ⟨(t, b), lookupTs_mem h, rfl⟩

theorem mem_innerJoin {α β : Type} {xs : List (Timestamp × α)} {ys : List (Timestamp × β)}
    {t : Timestamp} {a : α} {b : β} :
    (t, a, b) ∈ innerJoin xs ys ↔ (t, a) ∈ xs ∧ lookupTs t ys = some b := by
  constructor
  · intro h
    rcases List.mem_filterMap.mp h with ⟨p, hp, hf⟩
    rcases Option.map_eq_some'.mp hf with ⟨b', hb', heq⟩
    rw [Prod.mk.injEq, Prod.mk.injEq] at heq
    rcases heq with ⟨ht, ha, hb⟩
    subst ht; subst ha; subst hb
    exact ⟨hp, hb'⟩
  · rintro ⟨hx, hl⟩
    exact List.mem_filterMap.mpr ⟨(t, a), hx, by rw [hl]; rfl⟩

theorem mem_joinActual {up : List CorridorRow} {acts : List (Timestamp × ℚ)}
    {c : CorridorRow} {a : ℚ} :
    (c, a) ∈ joinActual up acts ↔ c ∈ up ∧ lookupTs c.t acts = some a := by
  constructor
  · intro h
    rcases List.mem_filterMap.mp h with ⟨c', hc', hf⟩
    rcases Option.map_eq_some'.mp hf with ⟨a', ha', heq⟩
    rw [Prod.mk.injEq] at heq
    rcases heq with ⟨hc, ha⟩
    subst hc; subst ha
    exact ⟨hc', ha'⟩
  · rintro ⟨hc, hl⟩
    exact List.mem_filterMap.mpr ⟨c, hc, by rw [hl]; rfl⟩

theorem rowDeviation_error_eq {floor hat actual : ℚ} {e : PipeError}
    (h : rowDeviation floor hat actual = .error e) : e = .divByZero := by
  rw [rowDeviation] at h
  by_cases h1 : actual < floor
  · rw [if_pos h1] at h
    rw [divE] at h
    by_cases h0 : actual = 0
    · rw [if_pos h0] at h
      cases h
      rfl
    · rw [if_neg h0] at h
      cases h
  · rw [if_neg h1] at h
    by_cases h2 : hat < actual
    · rw [if_pos h2] at h
      rw [divE] at h
      by_cases h0 : hat = 0
      · rw [if_pos h0] at h
        cases h
        rfl
      · rw [if_neg h0] at h
        cases h
    · rw [if_neg h2] at h
      cases h

theorem rowDeviation_floor_breach {floor hat actual : ℚ} (h1 : actual < floor)
    (h0 : actual ≠ 0) : rowDeviation floor hat actual = .ok (some (1 - floor / actual)) := by
  have h2 : -floor / actual + 1 = 1 - floor / actual := by
    rw [neg_div]
    ring
  rw [rowDeviation, if_pos h1, divE, if_neg h0]
  show Except.ok (some (-floor / actual + 1)) = Except.ok (some (1 - floor / actual))
  rw [h2]

theorem rowDeviation_floor_zero {floor hat : ℚ} (h1 : (0:ℚ) < floor) :
    rowDeviation floor hat 0 = .error .divByZero := by
  rw [rowDeviation, if_pos h1, divE, if_pos rfl]

theorem rowDeviation_ok_floor {floor hat actual : ℚ} {d : Option ℚ} (h1 : actual < floor)
    (h : rowDeviation floor hat actual = .ok d) : d = some (1 - floor / actual) := by
  by_cases h0 : actual = 0
  · subst h0
    rw [rowDeviation_floor_zero h1] at h
    cases h
  · rw [rowDeviation_floor_breach h1 h0] at h
    cases h
    rfl

theorem rowDeviation_within {floor hat actual : ℚ} (h1 : floor ≤ actual)
    (h2 : actual ≤ hat) : rowDeviation floor hat actual = .ok none := by
  rw [rowDeviation, if_neg (not_lt.mpr h1), if_neg (not_lt.mpr h2)]

theorem rowDeviation_ok_ceiling {floor hat actual : ℚ} {d : Option ℚ} (h1 : floor ≤ actual)
    (h2 : hat < actual) (h : rowDeviation floor hat actual = .ok d) :
    d = some (actual / hat - 1) := by
  rw [rowDeviation, if_neg (not_lt.mpr h1), if_pos h2, divE] at h
  by_cases h0 : hat = 0
  · rw [if_pos h0] at h
    cases h
  · rw [if_neg h0] at h
    cases h
    rfl

theorem scoreDeviations_ok_mem {joined : List (CorridorRow × ℚ)} {out : List DevRow} :
    scoreDeviations joined = .ok out → ∀ r ∈ out, ∃ c a, (c, a) ∈ joined ∧
      rowDeviation c.floor c.hat a = .ok r.deviation ∧ r.t = c.t ∧ r.mean = c.mean ∧
      r.floor = c.floor ∧ r.hat = c.hat ∧ r.actual = a := by
  induction joined generalizing out with
  | nil =>
    intro h r hr
    rw [scoreDeviations] at h
    cases h
    cases hr
  | cons p rest ih =>
    intro h r hr
    rw [scoreDeviations] at h
    rcases hd : rowDeviation p.1.floor p.1.hat p.2 with e | d
    · rw [hd] at h
      cases h
    · rw [hd] at h
      rcases ht : scoreDeviations rest with e | out'
      · rw [ht] at h
        cases h
      · rw [ht] at h
        cases h
        rcases List.mem_cons.mp hr with hr | hr
        · subst hr
          exact ⟨p.1, p.2, List.mem_cons_self _ _, hd, rfl, rfl, rfl, rfl, rfl⟩
        · rcases ih ht r hr with ⟨c, a, hmem, rest⟩
          exact ⟨c, a, List.mem_cons_of_mem _ hmem, rest⟩

theorem scoreDeviations_error_of_mem {joined : List (CorridorRow × ℚ)}
    {c : CorridorRow} {a : ℚ} (hmem : (c, a) ∈ joined)
    (hd : rowDeviation c.floor c.hat a = .error .divByZero) :
    scoreDeviations joined = .error .divByZero := by
  induction joined with
  | nil => cases hmem
  | cons p rest ih =>
    obtain ⟨c', a'⟩ := p
    rw [scoreDeviations]
    rcases List.mem_cons.mp hmem with hp | hp
    · rw [Prod.mk.injEq] at hp
      rcases hp with ⟨hc, ha⟩
      subst hc; subst ha
      rw [hd]
    · rcases hh : rowDeviation c'.floor c'.hat a' with e | d
      · rw [rowDeviation_error_eq hh]
      · rw [ih hp]

namespace Frames

theorem getFrame_append_lt (s tl : Store) (r : Ref) (h : r < s.length) :
    getFrame (s ++ tl) r = getFrame s r := by
  rw [getFrame, getFrame, List.getD_append _ _ _ _ h]

theorem getFrame_append_self (s : Store) (f : Frame) :
    getFrame (s ++ [f]) s.length = f := by
  rw [getFrame, List.getD_append_right _ _ _ _ (Nat.le_refl _), Nat.sub_self]
  rfl

theorem getFrame_set_ne (s : Store) (r r' : Ref) (f : Frame) (h : r ≠ r') :
    getFrame (s.set r f) r' = getFrame s r' := by
  rw [getFrame, getFrame, List.getD_eq_getD_get?, List.getD_eq_getD_get?,
    List.get?_eq_getElem?, List.get?_eq_getElem?, List.getElem?_set_ne h]

theorem getFrame_set_self (s : Store) (r : Ref) (f : Frame) (h : r < s.length) :
    getFrame (s.set r f) r = f := by
  rw [getFrame, List.getD_eq_getD_get?, List.get?_eq_getElem?,
    List.getElem?_set_eq_of_lt _ h]
  rfl

end Frames

theorem keys_map_pair {α β : Type} (f : α → β) (ys : List (Timestamp × α)) :
    (ys.map fun p => (p.1, f p.2)).map Prod.fst = ys.map Prod.fst := by
  rw [List.map_map]
  rfl

theorem mem_map_pair {α β : Type} {f : α → β} {ys : List (Timestamp × α)}
    {t : Timestamp} {b : β} :
    (t, b) ∈ (ys.map fun p => (p.1, f p.2)) ↔ ∃ a, (t, a) ∈ ys ∧ b = f a := by
  constructor
  · intro h
    rcases List.mem_map.mp h with ⟨q, hq, he⟩
    rw [Prod.mk.injEq] at he
    rcases he with ⟨h1, h2⟩
    refine ⟨q.2, ?_, h2.symm⟩
    rw [← h1]
    exact hq
  · rintro ⟨a, ha, hb⟩
    exact List.mem_map.mpr ⟨(t, a), ha, by rw [hb]⟩

theorem mem_mergeCorridor {fm fi fa : QuantileForecast} {row : CorridorRow} :
    row ∈ mergeCorridor fm fi fa ↔
      (∃ rm, (row.t, rm) ∈ fm.rows ∧ row.mean = rm.mean) ∧
      lookupTs row.t (fi.rows.map fun p => (p.1, p.2.q10)) = some row.floor ∧
      lookupTs row.t (fa.rows.map fun p => (p.1, p.2.q90)) = some row.hat := by
  rw [mergeCorridor]
  constructor
  · intro h
    rcases List.mem_map.mp h with ⟨p, hp, he⟩
    obtain ⟨t, pm, hv⟩ := p
    obtain ⟨m, fl⟩ := pm
    rcases mem_innerJoin.mp hp with ⟨hleft, hla⟩
    rcases mem_innerJoin.mp hleft with ⟨hm, hli⟩
    subst he
    rcases mem_map_pair.mp hm with ⟨rm, hrm, hme⟩
    subst hme
    exact ⟨⟨rm, hrm, rfl⟩, hli, hla⟩
  · rintro ⟨⟨rm, hrm, hme⟩, hli, hla⟩
    refine List.mem_map.mpr ⟨(row.t, (row.mean, row.floor), row.hat), ?_, rfl⟩
    refine mem_innerJoin.mpr ⟨?_, hla⟩
    refine mem_innerJoin.mpr ⟨?_, hli⟩
    exact mem_map_pair.mpr ⟨rm, hrm, hme⟩

theorem get_anomaly_summary_ok {p : Predictor} {df : RawFrame}
    {fromTime toTime : Timestamp} {res : AnomalySummary}
    (h : get_anomaly_summary p df fromTime toTime = .ok res) :
    validate df = .ok () ∧
    scoreDeviations (joinActual (upsample (corridorOf p df fromTime toTime)) df.rows) =
      .ok res.forecast ∧
    res.actual = df.rows := by
  rw [get_anomaly_summary] at h
  rcases hv : validate df with e | u
  · rw [hv] at h
    cases h
  · rw [hv] at h
    rcases hs : scoreDeviations
        (joinActual (upsample (corridorOf p df fromTime toTime)) df.rows) with e | table
    · rw [hs] at h
      cases h
    · rw [hs] at h
      have h2 : (Except.ok { forecast := table, actual := df.rows } :
          Except PipeError AnomalySummary) = .ok res := h
      cases h2
      refine ⟨?_, rfl, rfl⟩
      cases u
      rfl

theorem Frames.getFrame_copy_lt (s : Frames.Store) (r r' : Frames.Ref)
    (h : r' < s.length) :
    Frames.getFrame (Frames.copyFrame s r).1 r' = Frames.getFrame s r' := by
  rw [Frames.copyFrame]
  exact Frames.getFrame_append_lt _ _ _ h

theorem Frames.getFrame_copy_self (s : Frames.Store) (r : Frames.Ref) :
    Frames.getFrame (Frames.copyFrame s r).1 s.length =
      { data := (Frames.getFrame s r).data, writeable := true } := by
  rw [Frames.copyFrame]
  exact Frames.getFrame_append_self _ _

theorem Frames.length_copy (s : Frames.Store) (r : Frames.Ref) :
    (Frames.copyFrame s r).1.length = s.length + 1 := by
  rw [Frames.copyFrame]
  simp

theorem Frames.copyFrame_snd (s : Frames.Store) (r : Frames.Ref) :
    (Frames.copyFrame s r).2 = s.length := rfl

theorem copy_twice_spec (s : Frames.Store) (r0 : Frames.Ref) (hr : r0 < s.length)
    (rOther : Frames.Ref) (hro : rOther < s.length) (d : List (Timestamp × ℚ))
    (s1 : Frames.Store) (r1 : Frames.Ref) (h1 : Frames.copyFrame s r0 = (s1, r1))
    (s2 : Frames.Store) (r2 : Frames.Ref) (h2 : Frames.copyFrame s1 r0 = (s2, r2)) :
    r1 ≠ r0 ∧ r1 ≠ rOther ∧ r2 ≠ r1 ∧
    (Frames.getFrame s1 r1).data = (Frames.getFrame s r0).data ∧
    Frames.getFrame (Frames.writeData s2 r1 d) r2 = Frames.getFrame s2 r2 ∧
    Frames.getFrame (Frames.writeData s2 r1 d) r0 = Frames.getFrame s r0 := by
  obtain ⟨hs1, hr1⟩ : s1 = (Frames.copyFrame s r0).1 ∧ r1 = (Frames.copyFrame s r0).2 := by
    rw [h1]
    exact ⟨rfl, rfl⟩
  subst hs1
  subst hr1
  obtain ⟨hs2, hr2⟩ : s2 = (Frames.copyFrame (Frames.copyFrame s r0).1 r0).1 ∧
      r2 = (Frames.copyFrame (Frames.copyFrame s r0).1 r0).2 := by
    rw [h2]
    exact ⟨rfl, rfl⟩
  subst hs2
  subst hr2
  simp only [Frames.copyFrame_snd]
  have hlen1 : s.length < (Frames.copyFrame s r0).1.length := by
    rw [Frames.length_copy]
    exact Nat.lt_succ_self _
  have hne21 : (Frames.copyFrame s r0).1.length ≠ s.length := by
    rw [Frames.length_copy]
    exact Nat.succ_ne_self _
  have hw : (Frames.getFrame (Frames.copyFrame (Frames.copyFrame s r0).1 r0).1
      s.length).writeable = true := by
    rw [Frames.getFrame_copy_lt _ _ _ hlen1, Frames.getFrame_copy_self]
  refine ⟨(Nat.ne_of_lt hr).symm, (Nat.ne_of_lt hro).symm, hne21, ?_, ?_, ?_⟩
  · rw [Frames.getFrame_copy_self]
  · rw [Frames.writeData, if_pos hw, Frames.getFrame_set_ne _ _ _ _ hne21.symm]
  · rw [Frames.writeData, if_pos hw,
      Frames.getFrame_set_ne _ _ _ _ (Nat.ne_of_lt hr).symm,
      Frames.getFrame_copy_lt _ _ _ (Nat.lt_trans hr hlen1),
      Frames.getFrame_copy_lt _ _ _ hr]

/-! Claim theorems. -/

/-- Claim C2 (confirmed): for every row of the deviation table where
`floor ≤ actual ≤ ceiling`, the deviation value is absent (`None`). -/
theorem deviation_absent_within_corridor {joined : List (CorridorRow × ℚ)}
    {out : List DevRow} (h : scoreDeviations joined = .ok out) {r : DevRow}
    (hr : r ∈ out) (h1 : r.floor ≤ r.actual) (h2 : r.actual ≤ r.hat) :
    r.deviation = none := by
  rcases scoreDeviations_ok_mem h r hr with ⟨c, a, _, hdev, _, _, hf, hh, ha⟩
  rw [← hf, ← hh, ← ha] at hdev
  rw [rowDeviation_within h1 h2] at hdev
  injection hdev with h3
  exact h3.symm

/-- Witness for C2: a concrete row with floor 1 ≤ actual 5 ≤ ceiling 9
gets no deviation value. -/
theorem deviation_absent_within_corridor_witness :
    scoreDeviations joinedWithin =
      .ok [{ t := 0, mean := 5, floor := 1, hat := 9, actual := 5, deviation := none }] ∧
    ({ t := 0, mean := 5, floor := 1, hat := 9, actual := 5, deviation := none } : DevRow).floor ≤
      ({ t := 0, mean := 5, floor := 1, hat := 9, actual := 5, deviation := none } : DevRow).actual ∧
    ({ t := 0, mean := 5, floor := 1, hat := 9, actual := 5, deviation := none } : DevRow).deviation =
      none := by
  have h : scoreDeviations joinedWithin =
      .ok [{ t := 0, mean := 5, floor := 1, hat := 9, actual := 5, deviation := none }] := by
    simp [joinedWithin, scoreDeviations, rowDeviation, divE]
    norm_num
  refine ⟨h, by norm_num, ?_⟩
  exact deviation_absent_within_corridor h (List.mem_singleton.mpr rfl)
    (by norm_num) (by norm_num)

/-- Claim C9 (confirmed): when the corridor is crossed (floor > actual and
actual > ceiling hold at once), the floor-breach branch is evaluated first
and wins: the deviation is `1 - floor/actual`. -/
theorem floor_breach_precedence {joined : List (CorridorRow × ℚ)} {out : List DevRow}
    (h : scoreDeviations joined = .ok out) {r : DevRow} (hr : r ∈ out)
    (h1 : r.actual < r.floor) (h2 : r.hat < r.actual) :
    r.deviation = some (1 - r.floor / r.actual) := by
  rcases scoreDeviations_ok_mem h r hr with ⟨c, a, _, hdev, _, _, hf, hh, ha⟩
  rw [← hf, ← hh, ← ha] at hdev
  exact rowDeviation_ok_floor h1 hdev

/-- Witness for C9: floor 6 > actual 3 > ceiling 1; the produced deviation
is the floor-breach value `1 - 6/3 = -1`. -/
theorem floor_breach_precedence_witness :
    scoreDeviations joinedCrossed =
      .ok [{ t := 0, mean := 0, floor := 6, hat := 1, actual := 3, deviation := some (-1) }] ∧
    ({ t := 0, mean := 0, floor := 6, hat := 1, actual := 3, deviation := some (-1) } : DevRow).deviation =
      some (1 -
        ({ t := 0, mean := 0, floor := 6, hat := 1, actual := 3, deviation := some (-1) } : DevRow).floor /
        ({ t := 0, mean := 0, floor := 6, hat := 1, actual := 3, deviation := some (-1) } : DevRow).actual) := by
  have h : scoreDeviations joinedCrossed =
      .ok [{ t := 0, mean := 0, floor := 6, hat := 1, actual := 3, deviation := some (-1) }] := by
    simp [joinedCrossed, scoreDeviations, rowDeviation, divE]
    norm_num
  refine ⟨h, ?_⟩
  exact floor_breach_precedence h (List.mem_singleton.mpr rfl) (by norm_num) (by norm_num)

/-- Claim C8 (confirmed): a row with floor > actual = 0 makes the scorer
perform an unguarded division by zero; with division modelled as a partial
operation the whole deviation computation fails with the division-by-zero
domain error, and no guard or fallback intervenes. -/
theorem deviation_division_by_zero_unguarded {joined : List (CorridorRow × ℚ)}
    {c : CorridorRow} (hmem : (c, 0) ∈ joined) (hf : 0 < c.floor) :
    scoreDeviations joined = .error .divByZero :=
  scoreDeviations_error_of_mem hmem (rowDeviation_floor_zero hf)

/-- Witness for C8: a concrete joined row with actual 0 under floor 2. -/
theorem deviation_division_by_zero_unguarded_witness :
    (({ t := 0, mean := 0, floor := 2, hat := 5 } : CorridorRow), (0:ℚ)) ∈ joinedZero ∧
    scoreDeviations joinedZero = .error .divByZero := by
  refine ⟨List.mem_singleton.mpr rfl, ?_⟩
  exact deviation_division_by_zero_unguarded (List.mem_singleton.mpr rfl) (by norm_num)

/-- Claim C1 (amended): for every row of the deviation table, a floor breach
(floor > actual) yields `1 - floor/actual`; a ceiling breach yields
`actual/ceiling - 1` provided the floor-breach test did not fire first
(floor ≤ actual), and that value is strictly positive when ceiling > 0. -/
theorem deviation_breach_formulas {joined : List (CorridorRow × ℚ)} {out : List DevRow}
    (h : scoreDeviations joined = .ok out) {r : DevRow} (hr : r ∈ out) :
    (r.actual < r.floor → r.deviation = some (1 - r.floor / r.actual)) ∧
    (r.floor ≤ r.actual → r.hat < r.actual →
      r.deviation = some (r.actual / r.hat - 1) ∧
        (0 < r.hat → 0 < r.actual / r.hat - 1)) := by
  rcases scoreDeviations_ok_mem h r hr with ⟨c, a, _, hdev, _, _, hf, hh, ha⟩
  rw [← hf, ← hh, ← ha] at hdev
  constructor
  · intro h1
    exact rowDeviation_ok_floor h1 hdev
  · intro h1 h2
    refine ⟨rowDeviation_ok_ceiling h1 h2 hdev, fun hpos => ?_⟩
    exact sub_pos.mpr ((one_lt_div hpos).mpr h2)

/-- Counterexample to C1 as stated: in a row with floor 5 > actual 3 >
ceiling 2 (a crossed corridor with positive ceiling), the code produces the
floor-breach value `-2/3`, not `actual/ceiling - 1 = 1/2`, so the clause
"actual > ceiling implies deviation = actual/ceiling - 1" is false. -/
theorem deviation_ceiling_clause_counterexample :
    scoreDeviations [({ t := 0, mean := 0, floor := 5, hat := 2 }, 3)] =
      .ok [{ t := 0, mean := 0, floor := 5, hat := 2, actual := 3,
             deviation := some (-2/3) }] ∧
    (2:ℚ) < 3 ∧ (0:ℚ) < 2 ∧
    (some ((-2:ℚ)/3) : Option ℚ) ≠ some ((3:ℚ)/2 - 1) := by
  refine ⟨?_, by norm_num, by norm_num, ?_⟩
  · simp [scoreDeviations, rowDeviation, divE]
    norm_num
  · simp only [ne_eq, Option.some.injEq]
    norm_num

/-- Witness for the amended C1: one floor-breach row and one
ceiling-breach row with the predicted values. -/
theorem deviation_breach_formulas_witness :
    scoreDeviations joinedBreach = .ok [devBreach1, devBreach2] ∧
    ((devBreach1.actual < devBreach1.floor →
        devBreach1.deviation = some (1 - devBreach1.floor / devBreach1.actual)) ∧
      (devBreach1.floor ≤ devBreach1.actual → devBreach1.hat < devBreach1.actual →
        devBreach1.deviation = some (devBreach1.actual / devBreach1.hat - 1) ∧
          (0 < devBreach1.hat → 0 < devBreach1.actual / devBreach1.hat - 1))) ∧
    ((devBreach2.actual < devBreach2.floor →
        devBreach2.deviation = some (1 - devBreach2.floor / devBreach2.actual)) ∧
      (devBreach2.floor ≤ devBreach2.actual → devBreach2.hat < devBreach2.actual →
        devBreach2.deviation = some (devBreach2.actual / devBreach2.hat - 1) ∧
          (0 < devBreach2.hat → 0 < devBreach2.actual / devBreach2.hat - 1))) := by
  have h : scoreDeviations joinedBreach = .ok [devBreach1, devBreach2] := by
    simp [joinedBreach, scoreDeviations, rowDeviation, divE, devBreach1, devBreach2]
    norm_num
  exact ⟨h, deviation_breach_formulas h (by simp),
    deviation_breach_formulas h (by simp)⟩

/-- Counterexample to C3 as stated: a non-empty numeric frame with a time
index whose timestamps decrease passes validation, and the pipeline runs to
completion instead of raising a validation error — no strict-monotonicity
check exists in the source. -/
theorem non_monotonic_index_counterexample :
    validate decreasingFrame = .ok () ∧
    ¬ strictlyIncreasing decreasingFrame.rows ∧
    get_anomaly_summary predictorEmpty decreasingFrame 2 32 =
      .ok { forecast := [], actual := decreasingFrame.rows } := by
  refine ⟨rfl, by norm_num [strictlyIncreasing, decreasingFrame], rfl⟩

/-- Claim C3 (amended): an input frame that is empty, has a non-numeric
value column, or lacks a time index makes the entry point fail with a
validation error; the result is that error for every predictor, so no
downstream stage contributes.  (A non-strictly-increasing index is NOT
rejected; see the counterexample.) -/
theorem validation_error_before_aggregation (p : Predictor) (df : RawFrame)
    (fromTime toTime : Timestamp)
    (hbad : df.rows = [] ∨ df.valueNumeric = false ∨ df.hasDatetimeIndex = false) :
    ∃ e : PipeError, e.isValidation = true ∧
      get_anomaly_summary p df fromTime toTime = .error e := by
  have hv : ∃ e : PipeError, e.isValidation = true ∧ validate df = .error e := by
    by_cases h1 : df.hasValueColumn = false
    · exact ⟨.missingValueColumn, rfl, by rw [validate, if_pos h1]⟩
    · by_cases h2 : df.rows.isEmpty = true
      · refine ⟨.emptyDataFrame, rfl, ?_⟩
        rw [validate, if_neg h1, if_pos h2]
      · by_cases h3 : df.valueNumeric = false
        · refine ⟨.nonNumericValue, rfl, ?_⟩
          rw [validate, if_neg h1, if_neg h2, if_pos h3]
        · by_cases h4 : df.hasDatetimeIndex = false
          · refine ⟨.noDatetimeIndex, rfl, ?_⟩
            rw [validate, if_neg h1, if_neg h2, if_neg h3, if_pos h4]
          · exfalso
            rcases hbad with hb | hb | hb
            · exact h2 (by rw [hb]; rfl)
            · exact h3 hb
            · exact h4 hb
  rcases hv with ⟨e, hiv, hve⟩
  refine ⟨e, hiv, ?_⟩
  rw [get_anomaly_summary, hve]

/-- Witness for the amended C3: the empty frame yields a validation error. -/
theorem validation_error_before_aggregation_witness :
    emptyFrame.rows = [] ∧
    ∃ e : PipeError, e.isValidation = true ∧
      get_anomaly_summary predictorEmpty emptyFrame 0 30 = .error e :=
  ⟨rfl, validation_error_before_aggregation predictorEmpty emptyFrame 0 30 (Or.inl rfl)⟩

/-- Claim C4 (confirmed): the corridor merge keeps exactly the timestamps
present in all three forecasts, and each surviving row carries the mean of
the mean-forecast, the 0.1 quantile of the min-forecast and the 0.9 quantile
of the max-forecast at that timestamp. -/
theorem corridor_merger_inner_join (fm fi fa : QuantileForecast) :
    (∀ t : Timestamp, t ∈ (mergeCorridor fm fi fa).map CorridorRow.t ↔
      (t ∈ fm.rows.map Prod.fst ∧ t ∈ fi.rows.map Prod.fst ∧
        t ∈ fa.rows.map Prod.fst)) ∧
    (∀ row ∈ mergeCorridor fm fi fa, ∃ rm ri ra,
      (row.t, rm) ∈ fm.rows ∧ (row.t, ri) ∈ fi.rows ∧ (row.t, ra) ∈ fa.rows ∧
      row.mean = rm.mean ∧ row.floor = ri.q10 ∧ row.hat = ra.q90) := by
  have hvals : ∀ row ∈ mergeCorridor fm fi fa, ∃ rm ri ra,
      (row.t, rm) ∈ fm.rows ∧ (row.t, ri) ∈ fi.rows ∧ (row.t, ra) ∈ fa.rows ∧
      row.mean = rm.mean ∧ row.floor = ri.q10 ∧ row.hat = ra.q90 := by
    intro row hrow
    rcases mem_mergeCorridor.mp hrow with ⟨⟨rm, hrm, hme⟩, hli, hla⟩
    rcases mem_map_pair.mp (lookupTs_mem hli) with ⟨ri, hri, hfe⟩
    rcases mem_map_pair.mp (lookupTs_mem hla) with ⟨ra, hra, hhe⟩
    exact ⟨rm, ri, ra, hrm, hri, hra, hme, hfe, hhe⟩
  refine ⟨?_, hvals⟩
  intro t
  constructor
  · intro ht
    rcases List.mem_map.mp ht with ⟨row, hrow, hte⟩
    subst hte
    rcases hvals row hrow with ⟨rm, ri, ra, hrm, hri, hra, _, _, _⟩
    exact ⟨List.mem_map.mpr ⟨(row.t, rm), hrm, rfl⟩,
      List.mem_map.mpr ⟨(row.t, ri), hri, rfl⟩,
      List.mem_map.mpr ⟨(row.t, ra), hra, rfl⟩⟩
  · rintro ⟨hm, hi, ha⟩
    rcases List.mem_map.mp hm with ⟨q, hq, hqt⟩
    have hi' : t ∈ (fi.rows.map fun p => (p.1, p.2.q10)).map Prod.fst := by
      rw [keys_map_pair]
      exact hi
    have ha' : t ∈ (fa.rows.map fun p => (p.1, p.2.q90)).map Prod.fst := by
      rw [keys_map_pair]
      exact ha
    rcases lookupTs_isSome_of_mem hi' with ⟨fl, hfl⟩
    rcases lookupTs_isSome_of_mem ha' with ⟨h9, hh9⟩
    have hrow : ({ t := t, mean := q.2.mean, floor := fl, hat := h9 } : CorridorRow) ∈
        mergeCorridor fm fi fa := by
      apply mem_mergeCorridor.mpr
      refine ⟨⟨q.2, ?_, rfl⟩, hfl, hh9⟩
      rw [← hqt]
      exact hq
    exact List.mem_map.mpr ⟨_, hrow, rfl⟩

/-- Witness for C4: of the sample forecasts only timestamp 0 is shared; the
merged corridor is `[(0, mean 10, floor 7, ceiling 13)]` and its values come
from the three source rows. -/
theorem corridor_merger_inner_join_witness :
    mergeCorridor fmSample fiSample faSample =
      [{ t := 0, mean := 10, floor := 7, hat := 13 }] ∧
    ((0:Timestamp) ∈ (mergeCorridor fmSample fiSample faSample).map CorridorRow.t ↔
      ((0:Timestamp) ∈ fmSample.rows.map Prod.fst ∧
        (0:Timestamp) ∈ fiSample.rows.map Prod.fst ∧
        (0:Timestamp) ∈ faSample.rows.map Prod.fst)) ∧
    (∃ rm ri ra,
      (({ t := 0, mean := 10, floor := 7, hat := 13 } : CorridorRow).t, rm) ∈ fmSample.rows ∧
      (({ t := 0, mean := 10, floor := 7, hat := 13 } : CorridorRow).t, ri) ∈ fiSample.rows ∧
      (({ t := 0, mean := 10, floor := 7, hat := 13 } : CorridorRow).t, ra) ∈ faSample.rows ∧
      ({ t := 0, mean := 10, floor := 7, hat := 13 } : CorridorRow).mean = rm.mean ∧
      ({ t := 0, mean := 10, floor := 7, hat := 13 } : CorridorRow).floor = ri.q10 ∧
      ({ t := 0, mean := 10, floor := 7, hat := 13 } : CorridorRow).hat = ra.q90) := by
  have hmc : mergeCorridor fmSample fiSample faSample =
      [{ t := 0, mean := 10, floor := 7, hat := 13 }] := rfl
  refine ⟨hmc, (corridor_merger_inner_join fmSample fiSample faSample).1 0, ?_⟩
  refine (corridor_merger_inner_join fmSample fiSample faSample).2 _ ?_
  rw [hmc]
  exact List.mem_singleton.mpr rfl

/-- Claim C5 (confirmed): every timestamp of the deviation table produced by
a successful pipeline run appears both among the upsampled corridor's
timestamps and among the actual observations' timestamps — the inner join
drops unmatched timestamps and invents none. -/
theorem deviation_table_timestamps_subset {p : Predictor} {df : RawFrame}
    {fromTime toTime : Timestamp} {res : AnomalySummary}
    (h : get_anomaly_summary p df fromTime toTime = .ok res) :
    ∀ r ∈ res.forecast,
      r.t ∈ (upsample (corridorOf p df fromTime toTime)).map CorridorRow.t ∧
      r.t ∈ df.rows.map Prod.fst := by
  intro r hr
  rcases get_anomaly_summary_ok h with ⟨_, hs, _⟩
  rcases scoreDeviations_ok_mem hs r hr with ⟨c, a, hmem, _, ht, _⟩
  rcases mem_joinActual.mp hmem with ⟨hc, hl⟩
  rw [ht]
  exact ⟨List.mem_map.mpr ⟨c, hc, rfl⟩, lookupTs_mem_keys hl⟩

/-- Witness for C5: a concrete run whose single deviation row sits at
minute 30, a timestamp of both the upsampled corridor and the actuals. -/
theorem deviation_table_timestamps_subset_witness :
    get_anomaly_summary predictorConst sampleFrame 30 60 =
      .ok { forecast := [devRowC5], actual := sampleFrame.rows } ∧
    (devRowC5.t ∈
        (upsample (corridorOf predictorConst sampleFrame 30 60)).map CorridorRow.t ∧
      devRowC5.t ∈ sampleFrame.rows.map Prod.fst) := by
  have h : get_anomaly_summary predictorConst sampleFrame 30 60 =
      .ok { forecast := [devRowC5], actual := sampleFrame.rows } := by
    simp [get_anomaly_summary, validate, corridorOf, generate_forecast, resampleAgg,
      meanAgg, minAgg, maxAgg, bucketOf, mergeCorridor, innerJoin, lookupTs, upsample,
      lastLE, firstGE, interpVal, joinActual, scoreDeviations, rowDeviation, divE,
      get_minutes_between_dates, interval_length, List.range_succ, sampleFrame,
      predictorConst, devRowC5]
    norm_num
  refine ⟨h, ?_⟩
  exact deviation_table_timestamps_subset h _ (List.mem_singleton.mpr rfl)

/-- Claim C6 (confirmed): an empty corridor-merge or an empty scorer join is
not an error; the pipeline completes and the result container is built with
an empty forecast table. -/
theorem empty_join_propagates {p : Predictor} {df : RawFrame}
    {fromTime toTime : Timestamp} (hv : validate df = .ok ())
    (he : corridorOf p df fromTime toTime = [] ∨
      joinActual (upsample (corridorOf p df fromTime toTime)) df.rows = []) :
    get_anomaly_summary p df fromTime toTime =
      .ok { forecast := [], actual := df.rows } := by
  have hj : joinActual (upsample (corridorOf p df fromTime toTime)) df.rows = [] := by
    rcases he with he | he
    · rw [he]
      rfl
    · exact he
  rw [get_anomaly_summary, hv, hj]
  rfl

/-- Witness for C6: with forecasts sharing no timestamp (here: empty), the
corridor is empty and the pipeline still returns a result whose forecast
table is empty. -/
theorem empty_join_propagates_witness :
    validate sampleFrame = .ok () ∧
    corridorOf predictorEmpty sampleFrame 30 60 = [] ∧
    get_anomaly_summary predictorEmpty sampleFrame 30 60 =
      .ok { forecast := [], actual := sampleFrame.rows } :=
  ⟨rfl, rfl, empty_join_propagates rfl (Or.inl rfl)⟩

/-- Claim C7 (confirmed): each accessor call returns a fresh copy — never
one of the container's internal references — holding the same data; writing
through the object returned by one call changes neither the result of the
other call to the same accessor nor the container's internal frame. -/
theorem anomaly_result_accessors_return_copies (s : Frames.Store)
    (ar : Frames.AnomalyResult) (hf : ar.forecastRef < s.length)
    (ha : ar.actualRef < s.length) (d : List (Timestamp × ℚ))
    (s1 : Frames.Store) (r1 : Frames.Ref) (h1 : Frames.forecast s ar = (s1, r1))
    (s2 : Frames.Store) (r2 : Frames.Ref) (h2 : Frames.forecast s1 ar = (s2, r2))
    (u1 : Frames.Store) (a1 : Frames.Ref) (g1 : Frames.actual s ar = (u1, a1))
    (u2 : Frames.Store) (a2 : Frames.Ref) (g2 : Frames.actual u1 ar = (u2, a2)) :
    (r1 ≠ ar.forecastRef ∧ r1 ≠ ar.actualRef ∧ r2 ≠ r1 ∧
      (Frames.getFrame s1 r1).data = (Frames.getFrame s ar.forecastRef).data ∧
      Frames.getFrame (Frames.writeData s2 r1 d) r2 = Frames.getFrame s2 r2 ∧
      Frames.getFrame (Frames.writeData s2 r1 d) ar.forecastRef =
        Frames.getFrame s ar.forecastRef) ∧
    (a1 ≠ ar.actualRef ∧ a1 ≠ ar.forecastRef ∧ a2 ≠ a1 ∧
      (Frames.getFrame u1 a1).data = (Frames.getFrame s ar.actualRef).data ∧
      Frames.getFrame (Frames.writeData u2 a1 d) a2 = Frames.getFrame u2 a2 ∧
      Frames.getFrame (Frames.writeData u2 a1 d) ar.actualRef =
        Frames.getFrame s ar.actualRef) :=
  ⟨copy_twice_spec s ar.forecastRef hf ar.actualRef ha d s1 r1 h1 s2 r2 h2,
    copy_twice_spec s ar.actualRef ha ar.forecastRef hf d u1 a1 g1 u2 a2 g2⟩

/-- Witness for C7: the two-frame sample store, its accessors called twice
each, and a write of `[(9, 9)]` through the first returned copy. -/
theorem anomaly_result_accessors_return_copies_witness :
    sampleResult.forecastRef < sampleStore.length ∧
    sampleResult.actualRef < sampleStore.length ∧
    Frames.forecast sampleStore sampleResult = (sampleStore1, 2) ∧
    Frames.forecast sampleStore1 sampleResult = (sampleStore2, 3) ∧
    Frames.actual sampleStore sampleResult = (sampleStoreA1, 2) ∧
    Frames.actual sampleStoreA1 sampleResult = (sampleStoreA2, 3) ∧
    (((2:Frames.Ref) ≠ sampleResult.forecastRef ∧ (2:Frames.Ref) ≠ sampleResult.actualRef ∧
        (3:Frames.Ref) ≠ 2 ∧
        (Frames.getFrame sampleStore1 2).data =
          (Frames.getFrame sampleStore sampleResult.forecastRef).data ∧
        Frames.getFrame (Frames.writeData sampleStore2 2 [(9, 9)]) 3 =
          Frames.getFrame sampleStore2 3 ∧
        Frames.getFrame (Frames.writeData sampleStore2 2 [(9, 9)]) sampleResult.forecastRef =
          Frames.getFrame sampleStore sampleResult.forecastRef) ∧
      ((2:Frames.Ref) ≠ sampleResult.actualRef ∧ (2:Frames.Ref) ≠ sampleResult.forecastRef ∧
        (3:Frames.Ref) ≠ 2 ∧
        (Frames.getFrame sampleStoreA1 2).data =
          (Frames.getFrame sampleStore sampleResult.actualRef).data ∧
        Frames.getFrame (Frames.writeData sampleStoreA2 2 [(9, 9)]) 3 =
          Frames.getFrame sampleStoreA2 3 ∧
        Frames.getFrame (Frames.writeData sampleStoreA2 2 [(9, 9)]) sampleResult.actualRef =
          Frames.getFrame sampleStore sampleResult.actualRef)) :=
  ⟨by decide, by decide, rfl, rfl, rfl, rfl,
    anomaly_result_accessors_return_copies sampleStore sampleResult (by decide) (by decide)
      [(9, 9)] sampleStore1 2 rfl sampleStore2 3 rfl sampleStoreA1 2 rfl sampleStoreA2 3 rfl⟩

/-- Counterexample to C10 as stated: constructing an `AnomalyResult` from
the two-frame sample store leaves the caller's forecast frame exactly as it
was — its storage is still writeable, so the claimed read-only side effect
on the caller's forecast argument does not occur.  The
`.values.flags.writeable = False` statements set the flag of a freshly
materialised temporary array, not of the frame's stored array. -/
theorem anomaly_result_freeze_noop_counterexample :
    Frames.init sampleStore 0 1 =
      (sampleStoreInit, { forecastRef := 0, actualRef := 2 }) ∧
    Frames.getFrame sampleStoreInit 0 = Frames.getFrame sampleStore 0 ∧
    (Frames.getFrame sampleStoreInit 0).writeable = true ∧
    ¬ (Frames.getFrame sampleStoreInit 0).writeable = false :=
  ⟨rfl, rfl, rfl, by decide⟩

/-- Claim C10 (amended): the constructor stores `forecast_data` without
copying (the container aliases the caller's forecast frame) and stores a
fresh writeable copy of `actual_data`; the writeable-flag assignments it
then executes affect only discarded temporaries, so construction changes
neither the caller's forecast frame (its storage stays as writeable as
before, never read-only) nor the caller's actual frame. -/
theorem anomaly_result_init_aliasing (s : Frames.Store)
    (fRef aRef : Frames.Ref) (hf : fRef < s.length) (ha : aRef < s.length)
    (s' : Frames.Store) (ar : Frames.AnomalyResult)
    (h : Frames.init s fRef aRef = (s', ar)) :
    ar.forecastRef = fRef ∧
    ar.actualRef = s.length ∧
    Frames.getFrame s' fRef = Frames.getFrame s fRef ∧
    (Frames.getFrame s' fRef).writeable = (Frames.getFrame s fRef).writeable ∧
    Frames.getFrame s' aRef = Frames.getFrame s aRef ∧
    (Frames.getFrame s' ar.actualRef).data = (Frames.getFrame s aRef).data ∧
    (Frames.getFrame s' ar.actualRef).writeable = true := by
  obtain ⟨hs', har⟩ : s' = (Frames.init s fRef aRef).1 ∧
      ar = (Frames.init s fRef aRef).2 := by
    rw [h]
    exact ⟨rfl, rfl⟩
  subst hs'
  subst har
  have hff : Frames.getFrame (Frames.init s fRef aRef).1 fRef =
      Frames.getFrame s fRef := Frames.getFrame_copy_lt s aRef fRef hf
  refine ⟨rfl, rfl, hff, by rw [hff], Frames.getFrame_copy_lt s aRef aRef ha, ?_, ?_⟩
  · show (Frames.getFrame (Frames.copyFrame s aRef).1 (Frames.copyFrame s aRef).2).data =
      (Frames.getFrame s aRef).data
    rw [Frames.copyFrame_snd, Frames.getFrame_copy_self]
  · show (Frames.getFrame (Frames.copyFrame s aRef).1 (Frames.copyFrame s aRef).2).writeable =
      true
    rw [Frames.copyFrame_snd, Frames.getFrame_copy_self]

/-- Witness for the amended C10: on the two-frame sample store the result
aliases frame 0, stores a writeable copy of frame 1's data at slot 2, and
both original frames are unchanged. -/
theorem anomaly_result_init_aliasing_witness :
    (0:Frames.Ref) < sampleStore.length ∧ (1:Frames.Ref) < sampleStore.length ∧
    Frames.init sampleStore 0 1 =
      (sampleStoreInit, { forecastRef := 0, actualRef := 2 }) ∧
    (({ forecastRef := 0, actualRef := 2 } : Frames.AnomalyResult).forecastRef = 0 ∧
      ({ forecastRef := 0, actualRef := 2 } : Frames.AnomalyResult).actualRef =
        sampleStore.length ∧
      Frames.getFrame sampleStoreInit 0 = Frames.getFrame sampleStore 0 ∧
      (Frames.getFrame sampleStoreInit 0).writeable =
        (Frames.getFrame sampleStore 0).writeable ∧
      Frames.getFrame sampleStoreInit 1 = Frames.getFrame sampleStore 1 ∧
      (Frames.getFrame sampleStoreInit
        ({ forecastRef := 0, actualRef := 2 } : Frames.AnomalyResult).actualRef).data =
          (Frames.getFrame sampleStore 1).data ∧
      (Frames.getFrame sampleStoreInit
        ({ forecastRef := 0, actualRef := 2 } : Frames.AnomalyResult).actualRef).writeable =
          true) :=
  ⟨by decide, by decide, rfl,
    anomaly_result_init_aliasing sampleStore 0 1 (by decide) (by decide)
      sampleStoreInit { forecastRef := 0, actualRef := 2 } rfl⟩
